import Mathlib

/-!
Verification of the Ethani pricing core against its implementation.

The development embeds, in Lean, the two Python modules that hold the
pricing-and-resolution logic:

* `src/app/pricing.py` — the rule-based price calculator
  (`calculate_price`, `get_supply_demand_ratio`, `validate_inputs`);
* `src/app/blockchain.py` — the `ContractIntegration` resolver with its
  remote-contract attempts, mock (local) calculation and static
  base-price fallback.

Numbers are embedded exactly: Python ints become `ℤ`, Python float
arithmetic on the decimal constants of the module becomes exact `ℚ`
arithmetic, Python `round` (banker's rounding, half-to-even) becomes
`pyRoundHalfEven`, Python `int()` truncation becomes `pyInt`, and Python
division (which raises `ZeroDivisionError` on a zero divisor) becomes the
`Option`-valued `pyDiv`.  String formatting sub-fields of the audit
dictionaries (`ratio_formula`, `price_formula`) are omitted: they are
pure `str()` renderings of quantities that are already separate fields.
-/

namespace Ethani

/-- Python `int(x)` on a real value: truncation toward zero. -/
def pyInt (q : ℚ) : ℤ := if 0 ≤ q then ⌊q⌋ else ⌈q⌉

/-- Python `round(x)`: round to the nearest integer, ties to the even
integer (banker's rounding). -/
def pyRoundHalfEven (q : ℚ) : ℤ :=
  if Int.fract q < 1/2 then ⌊q⌋
  else if 1/2 < Int.fract q then ⌊q⌋ + 1
  else if ⌊q⌋ % 2 = 0 then ⌊q⌋ else ⌊q⌋ + 1

/-- Python `round(x, 2)`: round to two decimal places, ties to even. -/
def pyRound2 (q : ℚ) : ℚ := (pyRoundHalfEven (q * 100) : ℚ) / 100

/-- Python division `a / b` of two ints: a real (exact) quotient, raising
`ZeroDivisionError` — modelled as `none` — when the divisor is zero. -/
def pyDiv (a b : ℤ) : Option ℚ := if b = 0 then none else some ((a : ℚ) / (b : ℚ))

/-! ## Embedding of `src/app/pricing.py` -/

def CRITICAL_SHORTAGE_THRESHOLD : ℚ := 13/10
def SHORTAGE_THRESHOLD : ℚ := 11/10
def SURPLUS_THRESHOLD : ℚ := 4/5

def CRITICAL_SHORTAGE_MULTIPLIER : ℚ := 23/20
def SHORTAGE_MULTIPLIER : ℚ := 27/25
def NORMAL_MULTIPLIER : ℚ := 1
def SURPLUS_MULTIPLIER : ℚ := 9/10

def MAX_PRICE_INCREASE : ℚ := 3/2
def MAX_PRICE_DECREASE : ℚ := 7/10

/-- The four pricing regimes, plus the sentinel for the `supply <= 0`
degenerate early exit.  `calculate_price` identifies the regime through
its branch (observable in the returned `reason` string); the embedding
records it as an explicit field. -/
inductive Tier
  | criticalShortage
  | shortage
  | balanced
  | surplus
  | noSupply
  deriving DecidableEq

/-- The dictionary returned by `calculate_price` (the nested
`calculations` audit carries only echoes of the inputs plus formatting
strings, so it is not repeated here). -/
structure PriceResult where
  suggested_price : ℤ
  ratio : Option ℚ
  multiplier : ℚ
  reason : String
  is_capped : Bool
  tier : Tier
  deriving DecidableEq

/-- The multiplier selection chain of `calculate_price`
(`src/app/pricing.py`, lines 84–95): strict comparisons checked in
priority order. -/
def pricing_multiplier_tier (ratio : ℚ) : ℚ × Tier × String :=
  if ratio > CRITICAL_SHORTAGE_THRESHOLD then
    (CRITICAL_SHORTAGE_MULTIPLIER, Tier.criticalShortage, "Critical shortage (ratio > 1.30)")
  else if ratio > SHORTAGE_THRESHOLD then
    (SHORTAGE_MULTIPLIER, Tier.shortage, "Shortage detected (ratio > 1.10)")
  else if ratio < SURPLUS_THRESHOLD then
    (SURPLUS_MULTIPLIER, Tier.surplus, "Surplus available (ratio < 0.80)")
  else
    (NORMAL_MULTIPLIER, Tier.balanced, "Balanced supply-demand (0.80-1.10)")

/-- The hard-limit clamp of `calculate_price`
(`src/app/pricing.py`, lines 100–112), returning the possibly clamped
price, the updated reason and the `is_capped` flag. -/
def pricing_apply_limits (base_price : ℤ) (calculated_price : ℚ) (tier_reason : String) :
    ℚ × String × Bool :=
  let max_allowed : ℚ := (base_price : ℚ) * MAX_PRICE_INCREASE
  let min_allowed : ℚ := (base_price : ℚ) * MAX_PRICE_DECREASE
  if calculated_price > max_allowed then
    (max_allowed, tier_reason ++ " [CAPPED at +50%]", true)
  else if calculated_price < min_allowed then
    (min_allowed, tier_reason ++ " [FLOORED at -30%]", true)
  else
    (calculated_price, tier_reason, false)

/-- `calculate_price(supply, demand, base_price, season_factor)` from
`src/app/pricing.py`.  `none` would signal an uncaught Python exception;
the only such possibility is the `demand / supply` division. -/
def calculate_price (supply demand base_price : ℤ) (season_factor : ℚ) :
    Option PriceResult :=
  if supply ≤ 0 then
    some { suggested_price := base_price
           ratio := none
           multiplier := 1
           reason := "No supply available - using base price"
           is_capped := false
           tier := Tier.noSupply }
  else
    match pyDiv demand supply with
    | none => none
    | some ratio =>
      let mt := pricing_multiplier_tier ratio
      let multiplier := mt.1
      let calculated_price : ℚ := (base_price : ℚ) * multiplier * season_factor
      let clamped := pricing_apply_limits base_price calculated_price mt.2.2
      some { suggested_price := pyRoundHalfEven clamped.1
             ratio := some (pyRound2 ratio)
             multiplier := pyRound2 multiplier
             reason := clamped.2.1
             is_capped := clamped.2.2
             tier := mt.2.1 }

/-- The dictionary returned by `get_supply_demand_ratio`
(the echoed `supply`/`demand` fields are not repeated here). -/
structure RatioResult where
  ratio : Option ℚ
  tier : String
  tier_description : String
  deriving DecidableEq

/-- `get_supply_demand_ratio(supply, demand)` from `src/app/pricing.py`. -/
def get_supply_demand_ratio (supply demand : ℤ) : Option RatioResult :=
  if supply ≤ 0 then
    some { ratio := none
           tier := "error"
           tier_description := "No supply to calculate ratio" }
  else
    match pyDiv demand supply with
    | none => none
    | some ratio =>
      let td : String × String :=
        if ratio > CRITICAL_SHORTAGE_THRESHOLD then
          ("critical_shortage", "Critical shortage - price +15%")
        else if ratio > SHORTAGE_THRESHOLD then
          ("shortage", "Shortage - price +8%")
        else if ratio < SURPLUS_THRESHOLD then
          ("surplus", "Surplus - price -10%")
        else
          ("balanced", "Balanced supply-demand - price baseline")
      some { ratio := some (pyRound2 ratio)
             tier := td.1
             tier_description := td.2 }

/-- `validate_inputs(supply, demand, base_price)` from
`src/app/pricing.py`: returns `(is_valid, error_message)`. -/
def validate_inputs (supply demand base_price : ℤ) : Bool × String :=
  if base_price ≤ 0 then (false, "Base price must be positive")
  else if supply < 0 then (false, "Supply cannot be negative")
  else if demand < 0 then (false, "Demand cannot be negative")
  else if supply = 0 ∧ demand > 0 then (false, "Cannot have demand with zero supply")
  else (true, "")

/-! ## Embedding of `src/app/blockchain.py`

`ContractIntegration` resolves a price through the chain: Stylus remote
contract (fast), Solidity remote contract (standard), local mock
calculation, static base-price fallback.  The remote network world is
modelled by a `RemoteEnv` recording, for each endpoint, whether the
web3 connection check fails, the call raises, or the call succeeds with
a reply; the embedding is a function of that environment. -/

inductive BlockchainMode
  | MOCK
  | REAL
  deriving DecidableEq

/-- The four contract address settings (env var or default); Python
truthiness of the string — non-empty means configured — drives the
resolver, exactly as `bool(...)` does in `__init__`. -/
structure ContractConfig where
  pricing_contract_address : String
  region_contract_address : String
  pricing_stylus_address : String
  regions_stylus_address : String
  deriving DecidableEq

def ContractConfig.use_stylus_pricing (c : ContractConfig) : Bool :=
  c.pricing_stylus_address != ""

def ContractConfig.contracts_available (c : ContractConfig) : Bool :=
  (c.pricing_contract_address != "" || c.pricing_stylus_address != "") &&
  (c.region_contract_address != "" || c.regions_stylus_address != "")

/-- The `(finalPrice, reason, tier)` tuple a pricing contract returns;
`finalPrice` is a Solidity `uint256`, hence `ℕ`. -/
structure RemoteReply where
  finalPrice : ℕ
  reason : String
  tier : String
  deriving DecidableEq

/-- Outcome of one remote contract interaction: the `w3.is_connected()`
check fails, or the `.call()` (or anything else in the `try` body)
raises, or the call succeeds. -/
inductive RemoteOutcome
  | notConnected
  | excRaised
  | success (r : RemoteReply)
  deriving DecidableEq

/-- One resolver invocation's remote world: the outcome each endpoint
would produce if consulted. -/
structure RemoteEnv where
  stylus : RemoteOutcome
  solidity : RemoteOutcome
  deriving DecidableEq

/-- The audit sub-dictionary of `_mock_pricing_calculation`. -/
structure MockAudit where
  supply : ℤ
  demand : ℤ
  ratio : ℚ
  multiplier : ℚ
  base_price : ℤ
  calculated_price : ℤ
  deriving DecidableEq

/-- The result dictionary of `ContractIntegration.calculate_price` and
its helpers.  The keys differ per path: remote-contract results carry no
`is_capped` and no audit, and the fallback's audit holds only the
fallback reason and base price, so those are `Option`s (`none` = key
absent / not the mock audit shape). -/
structure ChainDecision where
  final_price : ℤ
  reason : String
  source : String
  is_capped : Option Bool
  audit : Option MockAudit
  deriving DecidableEq

/-- `ContractIntegration` state after `__init__`: the requested mode is
demoted to MOCK when no contracts are configured. -/
structure ContractIntegration where
  mode : BlockchainMode
  config : ContractConfig
  deriving DecidableEq

/-- `ContractIntegration.__init__(mode)` with the given address
configuration (env vars / defaults). -/
def ContractIntegration.init (mode : BlockchainMode) (config : ContractConfig) :
    ContractIntegration :=
  if mode = BlockchainMode.REAL ∧ ¬ config.contracts_available then
    { mode := BlockchainMode.MOCK, config := config }
  else
    { mode := mode, config := config }

/-- `ContractIntegration._fallback_to_base_price(base_price, reason)`. -/
def fallback_to_base_price (base_price : ℤ) (reason : String) : ChainDecision :=
  { final_price := base_price
    reason := reason
    source := "fallback"
    is_capped := some false
    audit := none }

/-- `ContractIntegration._call_pricing_contract` (Solidity): its whole
body is inside `try/except`, so every raise becomes the
`CONTRACT_CALL_FAILED` fallback; a failed connection check returns the
`BLOCKCHAIN_UNAVAILABLE` fallback without raising. -/
def call_pricing_contract (self : ContractIntegration) (supply demand base_price : ℤ)
    (env : RemoteEnv) : ChainDecision :=
  match env.solidity with
  | RemoteOutcome.notConnected =>
      fallback_to_base_price base_price "BLOCKCHAIN_UNAVAILABLE"
  | RemoteOutcome.excRaised =>
      fallback_to_base_price base_price "CONTRACT_CALL_FAILED"
  | RemoteOutcome.success r =>
      { final_price := (r.finalPrice : ℤ)
        reason := r.reason ++ " [" ++ r.tier ++ "]"
        source := "smart_contract_solidity"
        is_capped := none
        audit := none }

/-- `ContractIntegration._call_stylus_pricing_contract`: on any raise it
retries through the Solidity contract when that address is configured,
else returns the `STYLUS_CALL_FAILED` fallback. -/
def call_stylus_pricing_contract (self : ContractIntegration) (supply demand base_price : ℤ)
    (env : RemoteEnv) : ChainDecision :=
  match env.stylus with
  | RemoteOutcome.notConnected =>
      fallback_to_base_price base_price "BLOCKCHAIN_UNAVAILABLE"
  | RemoteOutcome.excRaised =>
      if self.config.pricing_contract_address ≠ "" then
        call_pricing_contract self supply demand base_price env
      else
        fallback_to_base_price base_price "STYLUS_CALL_FAILED"
  | RemoteOutcome.success r =>
      { final_price := (r.finalPrice : ℤ)
        reason := r.reason ++ " [" ++ r.tier ++ "]"
        source := "smart_contract_stylus"
        is_capped := none
        audit := none }

/-- The multiplier selection chain of `_mock_pricing_calculation`
(`src/app/blockchain.py`, lines 342–353). -/
def mock_multiplier (ratio : ℚ) : ℚ × String :=
  if ratio > (13/10 : ℚ) then (23/20, "Critical shortage (ratio > 1.30)")
  else if ratio > (11/10 : ℚ) then (27/25, "Shortage (ratio > 1.10)")
  else if ratio < (4/5 : ℚ) then (9/10, "Surplus (ratio < 0.80)")
  else (1, "Balanced (0.80-1.10)")

/-- The integer hard-limit clamp of `_mock_pricing_calculation`
(`src/app/blockchain.py`, lines 355–370): price and bounds are truncated
with `int()` before comparison. -/
def mock_apply_limits (base_price : ℤ) (calculated_price : ℤ) (tier_reason : String) :
    ℤ × String × Bool :=
  let max_allowed : ℤ := pyInt ((base_price : ℚ) * (3/2))
  let min_allowed : ℤ := pyInt ((base_price : ℚ) * (7/10))
  if calculated_price > max_allowed then
    (max_allowed, tier_reason ++ " [CAPPED +50%]", true)
  else if calculated_price < min_allowed then
    (min_allowed, tier_reason ++ " [FLOORED -30%]", true)
  else
    (calculated_price, tier_reason, false)

/-- `ContractIntegration._mock_pricing_calculation(supply, demand,
base_price, region)`; note: no season factor, `int()` truncation instead
of `round`.  `none` would signal an uncaught exception (only the
division could raise, and it is guarded). -/
def mock_pricing_calculation (self : ContractIntegration) (supply demand base_price : ℤ) :
    Option ChainDecision :=
  if supply ≤ 0 then
    some (fallback_to_base_price base_price "INSUFFICIENT_DATA")
  else if demand < 0 then
    some (fallback_to_base_price base_price "INSUFFICIENT_DATA")
  else
    match pyDiv demand supply with
    | none => none
    | some ratio =>
      let mr := mock_multiplier ratio
      let calculated_price : ℤ := pyInt ((base_price : ℚ) * mr.1)
      let clamped := mock_apply_limits base_price calculated_price mr.2
      some { final_price := clamped.1
             reason := clamped.2.1
             source := if self.mode = BlockchainMode.MOCK then "mock_pricing" else "smart_contract"
             is_capped := some clamped.2.2
             audit := some { supply := supply
                             demand := demand
                             ratio := pyRound2 ratio
                             multiplier := mr.1
                             base_price := base_price
                             calculated_price := clamped.1 } }

/-- `ContractIntegration.calculate_price(supply, demand, base_price,
region)` — the resolver.  The remote helper calls catch their own
exceptions, so the outer `try/except` has nothing left to catch; in MOCK
mode (or when contracts are unavailable) the local mock calculation
answers. -/
def ContractIntegration.calculate_price (self : ContractIntegration)
    (supply demand base_price : ℤ) (env : RemoteEnv) : Option ChainDecision :=
  if self.mode = BlockchainMode.REAL ∧ self.config.contracts_available then
    some (if self.config.use_stylus_pricing then
            call_stylus_pricing_contract self supply demand base_price env
          else
            call_pricing_contract self supply demand base_price env)
  else
    mock_pricing_calculation self supply demand base_price

/-! ## Facts about the rounding helpers -/

theorem floor_le_pyRoundHalfEven (q : ℚ) : ⌊q⌋ ≤ pyRoundHalfEven q := by
  unfold pyRoundHalfEven
  split_ifs <;> omega

theorem pyRoundHalfEven_le_floor_add_one (q : ℚ) : pyRoundHalfEven q ≤ ⌊q⌋ + 1 := by
  unfold pyRoundHalfEven
  split_ifs <;> omega

theorem pyRoundHalfEven_eq_floor_or (q : ℚ) :
    pyRoundHalfEven q = ⌊q⌋ ∨ pyRoundHalfEven q = ⌊q⌋ + 1 := by
  unfold pyRoundHalfEven
  split_ifs <;> omega

theorem pyRoundHalfEven_mono {x y : ℚ} (h : x ≤ y) :
    pyRoundHalfEven x ≤ pyRoundHalfEven y := by
  rcases le_or_lt (⌊x⌋ + 1) ⌊y⌋ with hf | hf
  · calc pyRoundHalfEven x ≤ ⌊x⌋ + 1 := pyRoundHalfEven_le_floor_add_one x
      _ ≤ ⌊y⌋ := hf
      _ ≤ pyRoundHalfEven y := floor_le_pyRoundHalfEven y
  · have hxy : ⌊x⌋ = ⌊y⌋ := le_antisymm (Int.floor_le_floor h) (by omega)
    have hfr : Int.fract x ≤ Int.fract y := by
      unfold Int.fract
      rw [hxy]
      linarith
    unfold pyRoundHalfEven
    rw [hxy]
    split_ifs <;> first | omega | linarith

theorem pyInt_eq_floor_of_nonneg {q : ℚ} (h : 0 ≤ q) : pyInt q = ⌊q⌋ := by
  unfold pyInt
  exact if_pos h

/-- Unfolding `calculate_price` on the positive-supply path. -/
theorem calculate_price_pos (supply demand base_price : ℤ) (sf : ℚ) (h : 0 < supply) :
    calculate_price supply demand base_price sf =
      some { suggested_price := pyRoundHalfEven (pricing_apply_limits base_price
               ((base_price : ℚ) * (pricing_multiplier_tier ((demand : ℚ) / (supply : ℚ))).1 * sf)
               (pricing_multiplier_tier ((demand : ℚ) / (supply : ℚ))).2.2).1
             ratio := some (pyRound2 ((demand : ℚ) / (supply : ℚ)))
             multiplier := pyRound2 (pricing_multiplier_tier ((demand : ℚ) / (supply : ℚ))).1
             reason := (pricing_apply_limits base_price
               ((base_price : ℚ) * (pricing_multiplier_tier ((demand : ℚ) / (supply : ℚ))).1 * sf)
               (pricing_multiplier_tier ((demand : ℚ) / (supply : ℚ))).2.2).2.1
             is_capped := (pricing_apply_limits base_price
               ((base_price : ℚ) * (pricing_multiplier_tier ((demand : ℚ) / (supply : ℚ))).1 * sf)
               (pricing_multiplier_tier ((demand : ℚ) / (supply : ℚ))).2.2).2.2
             tier := (pricing_multiplier_tier ((demand : ℚ) / (supply : ℚ))).2.1 } := by
  have h1 : ¬ supply ≤ 0 := by omega
  have h2 : ¬ supply = (0 : ℤ) := by omega
  simp only [calculate_price, pyDiv, if_neg h1, if_neg h2]

/-- Unfolding `get_supply_demand_ratio` on the positive-supply path. -/
theorem get_supply_demand_ratio_pos (supply demand : ℤ) (h : 0 < supply) :
    get_supply_demand_ratio supply demand =
      some { ratio := some (pyRound2 ((demand : ℚ) / (supply : ℚ)))
             tier := (if (demand : ℚ) / (supply : ℚ) > CRITICAL_SHORTAGE_THRESHOLD then
                        ("critical_shortage", "Critical shortage - price +15%")
                      else if (demand : ℚ) / (supply : ℚ) > SHORTAGE_THRESHOLD then
                        ("shortage", "Shortage - price +8%")
                      else if (demand : ℚ) / (supply : ℚ) < SURPLUS_THRESHOLD then
                        ("surplus", "Surplus - price -10%")
                      else
                        ("balanced", "Balanced supply-demand - price baseline")).1
             tier_description := (if (demand : ℚ) / (supply : ℚ) > CRITICAL_SHORTAGE_THRESHOLD then
                        ("critical_shortage", "Critical shortage - price +15%")
                      else if (demand : ℚ) / (supply : ℚ) > SHORTAGE_THRESHOLD then
                        ("shortage", "Shortage - price +8%")
                      else if (demand : ℚ) / (supply : ℚ) < SURPLUS_THRESHOLD then
                        ("surplus", "Surplus - price -10%")
                      else
                        ("balanced", "Balanced supply-demand - price baseline")).2 } := by
  have h1 : ¬ supply ≤ 0 := by omega
  have h2 : ¬ supply = (0 : ℤ) := by omega
  simp only [get_supply_demand_ratio, pyDiv, if_neg h1, if_neg h2]

/-- Unfolding `_mock_pricing_calculation` on the positive-supply,
nonnegative-demand path. -/
theorem mock_pricing_calculation_pos (self : ContractIntegration)
    (supply demand base_price : ℤ) (hs : 0 < supply) (hd : 0 ≤ demand) :
    mock_pricing_calculation self supply demand base_price =
      some { final_price := (mock_apply_limits base_price
               (pyInt ((base_price : ℚ) * (mock_multiplier ((demand : ℚ) / (supply : ℚ))).1))
               (mock_multiplier ((demand : ℚ) / (supply : ℚ))).2).1
             reason := (mock_apply_limits base_price
               (pyInt ((base_price : ℚ) * (mock_multiplier ((demand : ℚ) / (supply : ℚ))).1))
               (mock_multiplier ((demand : ℚ) / (supply : ℚ))).2).2.1
             source := if self.mode = BlockchainMode.MOCK then "mock_pricing" else "smart_contract"
             is_capped := some (mock_apply_limits base_price
               (pyInt ((base_price : ℚ) * (mock_multiplier ((demand : ℚ) / (supply : ℚ))).1))
               (mock_multiplier ((demand : ℚ) / (supply : ℚ))).2).2.2
             audit := some { supply := supply
                             demand := demand
                             ratio := pyRound2 ((demand : ℚ) / (supply : ℚ))
                             multiplier := (mock_multiplier ((demand : ℚ) / (supply : ℚ))).1
                             base_price := base_price
                             calculated_price := (mock_apply_limits base_price
                               (pyInt ((base_price : ℚ) * (mock_multiplier ((demand : ℚ) / (supply : ℚ))).1))
                               (mock_multiplier ((demand : ℚ) / (supply : ℚ))).2).1 } } := by
  have h1 : ¬ supply ≤ 0 := by omega
  have h2 : ¬ demand < 0 := by omega
  have h3 : ¬ supply = (0 : ℤ) := by omega
  simp only [mock_pricing_calculation, pyDiv, if_neg h1, if_neg h2, if_neg h3]

theorem pyRound2_cs_mult : pyRound2 (23/20 : ℚ) = 23/20 := by
  norm_num [pyRound2, pyRoundHalfEven, Int.fract]

theorem pyRound2_sh_mult : pyRound2 (27/25 : ℚ) = 27/25 := by
  norm_num [pyRound2, pyRoundHalfEven, Int.fract]

theorem pyRound2_su_mult : pyRound2 (9/10 : ℚ) = 9/10 := by
  norm_num [pyRound2, pyRoundHalfEven, Int.fract]

theorem pyRound2_no_mult : pyRound2 (1 : ℚ) = 1 := by
  norm_num [pyRound2, pyRoundHalfEven, Int.fract]

/-! ## The claims -/

/-- C6: with `base_price = 10000` and `season_factor = 1.0`,
`calculate_price` returns 10800/Shortage for (100, 120),
11500/CriticalShortage for (100, 150), 10000/Balanced for (100, 100),
9000/Surplus for (200, 100), 11500 uncapped for (100, 300); and with
`season_factor = 1.4` on a critical-shortage ratio the raw price 16100
exceeds 15000, so the result is capped to 15000 with `is_capped` true. -/
theorem claim_C6_concrete_scenarios :
    (calculate_price 100 120 10000 1).map (fun r => (r.suggested_price, r.tier)) =
      some (10800, Tier.shortage) ∧
    (calculate_price 100 150 10000 1).map (fun r => (r.suggested_price, r.tier)) =
      some (11500, Tier.criticalShortage) ∧
    (calculate_price 100 100 10000 1).map (fun r => (r.suggested_price, r.tier)) =
      some (10000, Tier.balanced) ∧
    (calculate_price 200 100 10000 1).map (fun r => (r.suggested_price, r.tier)) =
      some (9000, Tier.surplus) ∧
    (calculate_price 100 300 10000 1).map (fun r => (r.suggested_price, r.is_capped)) =
      some (11500, false) ∧
    (calculate_price 100 150 10000 (7/5)).map (fun r => (r.suggested_price, r.is_capped)) =
      some (15000, true) := by
  refine ⟨?_, ?_, ?_, ?_, ?_, ?_⟩ <;>
    norm_num [calculate_price, pricing_multiplier_tier, pricing_apply_limits, pyDiv,
      pyRoundHalfEven, pyRound2, pyInt, Int.fract, CRITICAL_SHORTAGE_THRESHOLD,
      SHORTAGE_THRESHOLD, SURPLUS_THRESHOLD, CRITICAL_SHORTAGE_MULTIPLIER,
      SHORTAGE_MULTIPLIER, NORMAL_MULTIPLIER, SURPLUS_MULTIPLIER,
      MAX_PRICE_INCREASE, MAX_PRICE_DECREASE]

/-- C7: for every `base_price` B (and any season factor), evaluating with
`supply = 0` and `demand = 0` returns immediately — not an error — with
`final_price = B`, `ratio` absent, `multiplier = 1.0`,
`is_capped = false` and the "no supply" reason. -/
theorem claim_C7_zero_supply_degenerate (base_price : ℤ) (season_factor : ℚ) :
    calculate_price 0 0 base_price season_factor =
      some { suggested_price := base_price
             ratio := none
             multiplier := 1
             reason := "No supply available - using base price"
             is_capped := false
             tier := Tier.noSupply } := by
  rfl

/-- C8: `validate_inputs` reports invalid exactly when `base_price ≤ 0`,
`supply < 0`, `demand < 0`, or `supply = 0` with `demand > 0`; the error
message is non-empty exactly on invalid inputs and empty on valid ones. -/
theorem claim_C8_validate_inputs_characterisation (supply demand base_price : ℤ) :
    ((validate_inputs supply demand base_price).1 = false ↔
      (base_price ≤ 0 ∨ supply < 0 ∨ demand < 0 ∨ (supply = 0 ∧ 0 < demand))) ∧
    ((validate_inputs supply demand base_price).1 = false →
      (validate_inputs supply demand base_price).2 ≠ "") ∧
    ((validate_inputs supply demand base_price).1 = true →
      (validate_inputs supply demand base_price).2 = "") := by
  unfold validate_inputs
  split_ifs with h1 h2 h3 h4 <;>
    refine ⟨?_, ?_, ?_⟩ <;>
      simp_all <;>
        try omega

theorem claim_C8_witness :
    (validate_inputs 0 5 10).1 = false ∧ (validate_inputs 0 5 10).2 ≠ "" := by
  have h := claim_C8_validate_inputs_characterisation 0 5 10
  have hinv : (validate_inputs 0 5 10).1 = false := h.1.mpr (by norm_num)
  exact ⟨hinv, h.2.1 hinv⟩

/-- C9: `calculate_price` is total over all integer inputs, even those
that bypassed validation: its result is always present (never an
uncaught exception, in particular never a division by zero), and every
input with `supply ≤ 0` — including negative supply with positive
demand — takes the degenerate early exit returning the base price with
multiplier 1.0 and `is_capped = false`. -/
theorem claim_C9_total_no_div_by_zero (supply demand base_price : ℤ) (season_factor : ℚ) :
    (calculate_price supply demand base_price season_factor).isSome = true ∧
    (supply ≤ 0 → calculate_price supply demand base_price season_factor =
      some { suggested_price := base_price
             ratio := none
             multiplier := 1
             reason := "No supply available - using base price"
             is_capped := false
             tier := Tier.noSupply }) := by
  constructor
  · rcases le_or_lt supply 0 with h | h
    · simp [calculate_price, if_pos h]
    · rw [calculate_price_pos supply demand base_price season_factor h]
      rfl
  · intro h
    simp [calculate_price, if_pos h]

theorem claim_C9_witness :
    calculate_price (-3) 5 10 1 =
      some { suggested_price := 10
             ratio := none
             multiplier := 1
             reason := "No supply available - using base price"
             is_capped := false
             tier := Tier.noSupply } :=
  (claim_C9_total_no_div_by_zero (-3) 5 10 1).2 (by norm_num)

/-- C3: for every valid input with positive supply (and season factor in
the documented [0.5, 2.0] domain), the final price lies within the hard
safety limits, stated with the rounding consistency the limits acquire
through the final rounding step: at least `⌊base_price × 0.70⌋` and at
most the rounded `base_price × 1.50`. -/
theorem claim_C3_price_within_hard_limits (supply demand base_price : ℤ) (season_factor : ℚ)
    (hs : 0 < supply) (hd : 0 ≤ demand) (hb : 0 < base_price)
    (hsf1 : 1/2 ≤ season_factor) (hsf2 : season_factor ≤ 2) (r : PriceResult)
    (hr : calculate_price supply demand base_price season_factor = some r) :
    ⌊(base_price : ℚ) * MAX_PRICE_DECREASE⌋ ≤ r.suggested_price ∧
    r.suggested_price ≤ pyRoundHalfEven ((base_price : ℚ) * MAX_PRICE_INCREASE) := by
  rw [calculate_price_pos supply demand base_price season_factor hs] at hr
  obtain rfl := Option.some.inj hr
  have hbq : (0 : ℚ) < (base_price : ℚ) := by exact_mod_cast hb
  have key : ∀ (c : ℚ) (s : String),
      (base_price : ℚ) * MAX_PRICE_DECREASE ≤ (pricing_apply_limits base_price c s).1 ∧
      (pricing_apply_limits base_price c s).1 ≤ (base_price : ℚ) * MAX_PRICE_INCREASE := by
    intro c s
    simp only [pricing_apply_limits, MAX_PRICE_INCREASE, MAX_PRICE_DECREASE]
    split_ifs with h1 h2 <;> constructor <;> linarith
  refine ⟨?_, ?_⟩
  · exact le_trans (Int.floor_le_floor (key _ _).1) (floor_le_pyRoundHalfEven _)
  · exact pyRoundHalfEven_mono (key _ _).2

theorem claim_C3_witness :
    ⌊(10000 : ℚ) * MAX_PRICE_DECREASE⌋ ≤ (10800 : ℤ) ∧
    (10800 : ℤ) ≤ pyRoundHalfEven ((10000 : ℚ) * MAX_PRICE_INCREASE) := by
  have hc : calculate_price 100 120 10000 1 =
      some { suggested_price := 10800
             ratio := some (6/5)
             multiplier := 27/25
             reason := "Shortage detected (ratio > 1.10)"
             is_capped := false
             tier := Tier.shortage } := by
    norm_num [calculate_price, pricing_multiplier_tier, pricing_apply_limits, pyDiv,
      pyRoundHalfEven, pyRound2, pyInt, Int.fract, CRITICAL_SHORTAGE_THRESHOLD,
      SHORTAGE_THRESHOLD, SURPLUS_THRESHOLD, CRITICAL_SHORTAGE_MULTIPLIER,
      SHORTAGE_MULTIPLIER, NORMAL_MULTIPLIER, SURPLUS_MULTIPLIER,
      MAX_PRICE_INCREASE, MAX_PRICE_DECREASE]
  exact claim_C3_price_within_hard_limits 100 120 10000 1 (by norm_num) (by norm_num)
    (by norm_num) (by norm_num) (by norm_num) _ hc

/-- C4: for positive supply, `calculate_price` assigns exactly one tier,
by strict comparisons in priority order: ratio above 1.30 is a critical
shortage (multiplier 1.15), above 1.10 a shortage (1.08), below 0.80 a
surplus (0.90), and otherwise balanced (1.0); so ratio exactly 1.10 is
balanced, exactly 1.30 is shortage, and exactly 0.80 is balanced. -/
theorem claim_C4_tier_boundaries (supply demand base_price : ℤ) (season_factor : ℚ)
    (hs : 0 < supply) (r : PriceResult)
    (hr : calculate_price supply demand base_price season_factor = some r) :
    (r.tier = Tier.criticalShortage ↔ (demand : ℚ) / (supply : ℚ) > 13/10) ∧
    (r.tier = Tier.shortage ↔
      ((demand : ℚ) / (supply : ℚ) > 11/10 ∧ (demand : ℚ) / (supply : ℚ) ≤ 13/10)) ∧
    (r.tier = Tier.surplus ↔ (demand : ℚ) / (supply : ℚ) < 4/5) ∧
    (r.tier = Tier.balanced ↔
      (4/5 ≤ (demand : ℚ) / (supply : ℚ) ∧ (demand : ℚ) / (supply : ℚ) ≤ 11/10)) ∧
    (r.tier = Tier.criticalShortage → r.multiplier = 23/20) ∧
    (r.tier = Tier.shortage → r.multiplier = 27/25) ∧
    (r.tier = Tier.surplus → r.multiplier = 9/10) ∧
    (r.tier = Tier.balanced → r.multiplier = 1) := by
  rw [calculate_price_pos supply demand base_price season_factor hs] at hr
  obtain rfl := Option.some.inj hr
  simp only [pricing_multiplier_tier, CRITICAL_SHORTAGE_THRESHOLD, SHORTAGE_THRESHOLD,
    SURPLUS_THRESHOLD, CRITICAL_SHORTAGE_MULTIPLIER, SHORTAGE_MULTIPLIER,
    NORMAL_MULTIPLIER, SURPLUS_MULTIPLIER]
  split_ifs with h1 h2 h3 <;>
    refine ⟨?_, ?_, ?_, ?_, ?_, ?_, ?_, ?_⟩ <;>
      simp_all [pyRound2_cs_mult, pyRound2_sh_mult, pyRound2_su_mult, pyRound2_no_mult] <;>
        first
        | linarith
        | (intro hcontra; linarith)
        | (constructor <;> intro hcontra <;> linarith)
        | (constructor <;> linarith)

theorem claim_C4_witness :
    4/5 ≤ ((11 : ℤ) : ℚ) / ((10 : ℤ) : ℚ) ∧ ((11 : ℤ) : ℚ) / ((10 : ℤ) : ℚ) ≤ 11/10 := by
  have hc : calculate_price 10 11 10000 1 =
      some { suggested_price := 10000
             ratio := some (11/10)
             multiplier := 1
             reason := "Balanced supply-demand (0.80-1.10)"
             is_capped := false
             tier := Tier.balanced } := by
    norm_num [calculate_price, pricing_multiplier_tier, pricing_apply_limits, pyDiv,
      pyRoundHalfEven, pyRound2, pyInt, Int.fract, CRITICAL_SHORTAGE_THRESHOLD,
      SHORTAGE_THRESHOLD, SURPLUS_THRESHOLD, CRITICAL_SHORTAGE_MULTIPLIER,
      SHORTAGE_MULTIPLIER, NORMAL_MULTIPLIER, SURPLUS_MULTIPLIER,
      MAX_PRICE_INCREASE, MAX_PRICE_DECREASE]
  exact (claim_C4_tier_boundaries 10 11 10000 1 (by norm_num) _ hc).2.2.2.1.mp rfl

/-- C10: for positive supply, the tier label of `get_supply_demand_ratio`
matches the multiplier branch `calculate_price` selects on the same
pair: the two functions classify every (supply, demand) identically. -/
theorem claim_C10_ratio_tier_matches_pricing (supply demand base_price : ℤ)
    (season_factor : ℚ) (hs : 0 < supply) (pr : PriceResult) (rr : RatioResult)
    (hp : calculate_price supply demand base_price season_factor = some pr)
    (hg : get_supply_demand_ratio supply demand = some rr) :
    (rr.tier = "critical_shortage" ∧ pr.tier = Tier.criticalShortage ∧ pr.multiplier = 23/20) ∨
    (rr.tier = "shortage" ∧ pr.tier = Tier.shortage ∧ pr.multiplier = 27/25) ∨
    (rr.tier = "surplus" ∧ pr.tier = Tier.surplus ∧ pr.multiplier = 9/10) ∨
    (rr.tier = "balanced" ∧ pr.tier = Tier.balanced ∧ pr.multiplier = 1) := by
  rw [calculate_price_pos supply demand base_price season_factor hs] at hp
  rw [get_supply_demand_ratio_pos supply demand hs] at hg
  obtain rfl := Option.some.inj hp
  obtain rfl := Option.some.inj hg
  simp only [pricing_multiplier_tier, CRITICAL_SHORTAGE_THRESHOLD, SHORTAGE_THRESHOLD,
    SURPLUS_THRESHOLD, CRITICAL_SHORTAGE_MULTIPLIER, SHORTAGE_MULTIPLIER,
    NORMAL_MULTIPLIER, SURPLUS_MULTIPLIER]
  split_ifs with h1 h2 h3
  · exact Or.inl ⟨rfl, rfl, pyRound2_cs_mult⟩
  · exact Or.inr (Or.inl ⟨rfl, rfl, pyRound2_sh_mult⟩)
  · exact Or.inr (Or.inr (Or.inl ⟨rfl, rfl, pyRound2_su_mult⟩))
  · exact Or.inr (Or.inr (Or.inr ⟨rfl, rfl, pyRound2_no_mult⟩))

theorem claim_C10_witness :
    ((get_supply_demand_ratio 100 150).map (fun r => r.tier) = some "critical_shortage") ∧
    ((calculate_price 100 150 10000 1).map (fun r => r.multiplier) = some (23/20)) := by
  have hp : calculate_price 100 150 10000 1 =
      some { suggested_price := 11500
             ratio := some (3/2)
             multiplier := 23/20
             reason := "Critical shortage (ratio > 1.30)"
             is_capped := false
             tier := Tier.criticalShortage } := by
    norm_num [calculate_price, pricing_multiplier_tier, pricing_apply_limits, pyDiv,
      pyRoundHalfEven, pyRound2, pyInt, Int.fract, CRITICAL_SHORTAGE_THRESHOLD,
      SHORTAGE_THRESHOLD, SURPLUS_THRESHOLD, CRITICAL_SHORTAGE_MULTIPLIER,
      SHORTAGE_MULTIPLIER, NORMAL_MULTIPLIER, SURPLUS_MULTIPLIER,
      MAX_PRICE_INCREASE, MAX_PRICE_DECREASE]
  have hg : get_supply_demand_ratio 100 150 =
      some { ratio := some (3/2)
             tier := "critical_shortage"
             tier_description := "Critical shortage - price +15%" } := by
    norm_num [get_supply_demand_ratio, pyDiv, pyRound2, pyRoundHalfEven, Int.fract,
      CRITICAL_SHORTAGE_THRESHOLD, SHORTAGE_THRESHOLD, SURPLUS_THRESHOLD]
  have h := claim_C10_ratio_tier_matches_pricing 100 150 10000 1 (by norm_num) _ _ hp hg
  rcases h with ⟨ht, _, hm⟩ | ⟨ht, _, _⟩ | ⟨ht, _, _⟩ | ⟨ht, _, _⟩ <;>
    simp_all [hp, hg]

/-- The final price of `mock_apply_limits` is nonnegative whenever the
base price is. -/
theorem mock_apply_limits_nonneg (base_price : ℤ) (hb : 0 ≤ base_price)
    (c : ℤ) (s : String) : 0 ≤ (mock_apply_limits base_price c s).1 := by
  have hbq : (0 : ℚ) ≤ (base_price : ℚ) := by exact_mod_cast hb
  have h1 : (0 : ℤ) ≤ pyInt ((base_price : ℚ) * (3/2)) := by
    rw [pyInt_eq_floor_of_nonneg (by linarith)]
    exact Int.le_floor.mpr (by push_cast; linarith)
  have h2 : (0 : ℤ) ≤ pyInt ((base_price : ℚ) * (7/10)) := by
    rw [pyInt_eq_floor_of_nonneg (by linarith)]
    exact Int.le_floor.mpr (by push_cast; linarith)
  simp only [mock_apply_limits]
  split_ifs with ha hb2 <;> omega

/-- C5: the resolver never propagates an error: over every remote
environment (connection failures, raised exceptions, successful replies)
and every configuration, `ContractIntegration.calculate_price` on a
structurally valid input returns a complete decision, tagged with one of
the four provenance sources, with a nonnegative final price. -/
theorem claim_C5_resolver_never_fails (requested : BlockchainMode) (config : ContractConfig)
    (env : RemoteEnv) (supply demand base_price : ℤ)
    (hb : 0 < base_price) (hs : 0 ≤ supply) (hd : 0 ≤ demand)
    (hz : ¬ (supply = 0 ∧ 0 < demand)) :
    ∃ r, (ContractIntegration.init requested config).calculate_price
        supply demand base_price env = some r ∧
      (r.source = "smart_contract_stylus" ∨ r.source = "smart_contract_solidity" ∨
       r.source = "mock_pricing" ∨ r.source = "fallback") ∧
      0 ≤ r.final_price := by
  have hsol : ∀ self : ContractIntegration,
      ((call_pricing_contract self supply demand base_price env).source =
          "smart_contract_solidity" ∨
        (call_pricing_contract self supply demand base_price env).source = "fallback") ∧
      0 ≤ (call_pricing_contract self supply demand base_price env).final_price := by
    intro self
    unfold call_pricing_contract
    cases h : env.solidity with
    | notConnected =>
      refine ⟨Or.inr rfl, ?_⟩
      show (0 : ℤ) ≤ base_price
      omega
    | excRaised =>
      refine ⟨Or.inr rfl, ?_⟩
      show (0 : ℤ) ≤ base_price
      omega
    | success r =>
      refine ⟨Or.inl rfl, ?_⟩
      show (0 : ℤ) ≤ (r.finalPrice : ℤ)
      positivity
  have hsty : ∀ self : ContractIntegration,
      ((call_stylus_pricing_contract self supply demand base_price env).source =
          "smart_contract_stylus" ∨
       (call_stylus_pricing_contract self supply demand base_price env).source =
          "smart_contract_solidity" ∨
       (call_stylus_pricing_contract self supply demand base_price env).source = "fallback") ∧
      0 ≤ (call_stylus_pricing_contract self supply demand base_price env).final_price := by
    intro self
    unfold call_stylus_pricing_contract
    cases h : env.stylus with
    | notConnected =>
      refine ⟨Or.inr (Or.inr rfl), ?_⟩
      show (0 : ℤ) ≤ base_price
      omega
    | excRaised =>
      split_ifs with haddr
      · rcases hsol self with ⟨hsrc, hfin⟩
        exact ⟨Or.inr hsrc, hfin⟩
      · refine ⟨Or.inr (Or.inr rfl), ?_⟩
        show (0 : ℤ) ≤ base_price
        omega
    | success r =>
      refine ⟨Or.inl rfl, ?_⟩
      show (0 : ℤ) ≤ (r.finalPrice : ℤ)
      positivity
  have hmock : ∀ self : ContractIntegration, self.mode = BlockchainMode.MOCK →
      ∃ r, mock_pricing_calculation self supply demand base_price = some r ∧
        (r.source = "mock_pricing" ∨ r.source = "fallback") ∧ 0 ≤ r.final_price := by
    intro self hmode
    rcases le_or_lt supply 0 with hsle | hsgt
    · refine ⟨fallback_to_base_price base_price "INSUFFICIENT_DATA",
        by simp [mock_pricing_calculation, if_pos hsle], Or.inr rfl, ?_⟩
      show (0 : ℤ) ≤ base_price
      omega
    · rw [mock_pricing_calculation_pos self supply demand base_price hsgt hd]
      refine ⟨_, rfl, Or.inl (by simp [hmode]), ?_⟩
      exact mock_apply_limits_nonneg base_price (by omega) _ _
  have hmock4 : ∀ self : ContractIntegration, self.mode = BlockchainMode.MOCK →
      ∃ r, mock_pricing_calculation self supply demand base_price = some r ∧
        (r.source = "smart_contract_stylus" ∨ r.source = "smart_contract_solidity" ∨
         r.source = "mock_pricing" ∨ r.source = "fallback") ∧ 0 ≤ r.final_price := by
    intro self hmode
    rcases hmock self hmode with ⟨r, hr, hsrc, hfin⟩
    refine ⟨r, hr, ?_, hfin⟩
    rcases hsrc with h | h
    · exact Or.inr (Or.inr (Or.inl h))
    · exact Or.inr (Or.inr (Or.inr h))
  unfold ContractIntegration.init
  by_cases hinit : requested = BlockchainMode.REAL ∧ ¬ (config.contracts_available = true)
  · rw [if_pos hinit]
    have hcond : ¬ (({ mode := BlockchainMode.MOCK, config := config } :
        ContractIntegration).mode = BlockchainMode.REAL ∧
        ({ mode := BlockchainMode.MOCK, config := config } :
        ContractIntegration).config.contracts_available = true) := by
      intro hcontra
      exact BlockchainMode.noConfusion hcontra.1
    unfold ContractIntegration.calculate_price
    rw [if_neg hcond]
    exact hmock4 { mode := BlockchainMode.MOCK, config := config } rfl
  · rw [if_neg hinit]
    by_cases hreal : ({ mode := requested, config := config } :
        ContractIntegration).mode = BlockchainMode.REAL ∧
        ({ mode := requested, config := config } :
        ContractIntegration).config.contracts_available = true
    · unfold ContractIntegration.calculate_price
      rw [if_pos hreal]
      by_cases hstylus : ({ mode := requested, config := config } :
          ContractIntegration).config.use_stylus_pricing = true
      · rw [if_pos hstylus]
        rcases hsty { mode := requested, config := config } with ⟨hsrc, hfin⟩
        refine ⟨_, rfl, ?_, hfin⟩
        rcases hsrc with h | h | h
        · exact Or.inl h
        · exact Or.inr (Or.inl h)
        · exact Or.inr (Or.inr (Or.inr h))
      · rw [if_neg hstylus]
        rcases hsol { mode := requested, config := config } with ⟨hsrc, hfin⟩
        refine ⟨_, rfl, ?_, hfin⟩
        rcases hsrc with h | h
        · exact Or.inr (Or.inl h)
        · exact Or.inr (Or.inr (Or.inr h))
    · unfold ContractIntegration.calculate_price
      rw [if_neg hreal]
      apply hmock4
      show requested = BlockchainMode.MOCK
      cases hq : requested with
      | MOCK => rfl
      | REAL =>
        exfalso
        rw [hq] at hinit hreal
        apply hreal
        refine ⟨rfl, ?_⟩
        by_contra hnav
        exact hinit ⟨rfl, hnav⟩

theorem claim_C5_witness :
    ∃ r, (ContractIntegration.init BlockchainMode.REAL
        { pricing_contract_address := ""
          region_contract_address := ""
          pricing_stylus_address := ""
          regions_stylus_address := "" }).calculate_price 100 120 10000
        { stylus := RemoteOutcome.excRaised, solidity := RemoteOutcome.excRaised } = some r ∧
      (r.source = "smart_contract_stylus" ∨ r.source = "smart_contract_solidity" ∨
       r.source = "mock_pricing" ∨ r.source = "fallback") ∧
      0 ≤ r.final_price :=
  claim_C5_resolver_never_fails BlockchainMode.REAL _ _ 100 120 10000
    (by norm_num) (by norm_num) (by norm_num) (by norm_num)

/-- For multipliers within the hard limits, `calculate_price`'s clamp is
inert (season factor 1). -/
theorem pricing_no_cap (base_price : ℤ) (hb : 0 < base_price) (m : ℚ)
    (hm1 : 7/10 ≤ m) (hm2 : m ≤ 3/2) (s : String) :
    pricing_apply_limits base_price ((base_price : ℚ) * m * 1) s =
      ((base_price : ℚ) * m * 1, s, false) := by
  have hbq : (0 : ℚ) < (base_price : ℚ) := by exact_mod_cast hb
  simp only [pricing_apply_limits, MAX_PRICE_INCREASE, MAX_PRICE_DECREASE]
  rw [if_neg (by nlinarith), if_neg (by nlinarith)]

/-- For multipliers within the hard limits, the mock's integer clamp is
inert. -/
theorem mock_no_cap (base_price : ℤ) (hb : 0 < base_price) (m : ℚ)
    (hm1 : 7/10 ≤ m) (hm2 : m ≤ 3/2) (s : String) :
    mock_apply_limits base_price (pyInt ((base_price : ℚ) * m)) s =
      (pyInt ((base_price : ℚ) * m), s, false) := by
  have hbq : (0 : ℚ) < (base_price : ℚ) := by exact_mod_cast hb
  have hm0 : (0 : ℚ) ≤ (base_price : ℚ) * m := by nlinarith
  have h32 : (0 : ℚ) ≤ (base_price : ℚ) * (3/2) := by nlinarith
  have h710 : (0 : ℚ) ≤ (base_price : ℚ) * (7/10) := by nlinarith
  have e1 : pyInt ((base_price : ℚ) * m) = ⌊(base_price : ℚ) * m⌋ :=
    pyInt_eq_floor_of_nonneg hm0
  have e2 : pyInt ((base_price : ℚ) * (3/2)) = ⌊(base_price : ℚ) * (3/2)⌋ :=
    pyInt_eq_floor_of_nonneg h32
  have e3 : pyInt ((base_price : ℚ) * (7/10)) = ⌊(base_price : ℚ) * (7/10)⌋ :=
    pyInt_eq_floor_of_nonneg h710
  simp only [mock_apply_limits, e1, e2, e3]
  rw [if_neg (by
        rw [not_lt]
        exact Int.floor_le_floor (by nlinarith)),
      if_neg (by
        rw [not_lt]
        exact Int.floor_le_floor (by nlinarith))]

/-- Truncation and banker's rounding of the same nonnegative product
agree or differ by exactly one. -/
theorem local_agree_aux (base_price : ℤ) (hb : 0 < base_price) (m : ℚ)
    (hm1 : 7/10 ≤ m) :
    pyInt ((base_price : ℚ) * m) = pyRoundHalfEven ((base_price : ℚ) * m * 1) ∨
    pyInt ((base_price : ℚ) * m) + 1 = pyRoundHalfEven ((base_price : ℚ) * m * 1) := by
  have hbq : (0 : ℚ) < (base_price : ℚ) := by exact_mod_cast hb
  have hm0 : (0 : ℚ) ≤ (base_price : ℚ) * m := by nlinarith
  rw [mul_one, pyInt_eq_floor_of_nonneg hm0]
  rcases pyRoundHalfEven_eq_floor_or ((base_price : ℚ) * m) with h | h
  · exact Or.inl h.symm
  · exact Or.inr h.symm

/-- C1 counterexample: in RealMode with no remote source configured, at
supply 200, demand 100, base price 15, the resolver's local path yields
13 (it truncates `15 × 0.90 = 13.5`) while `calculate_price` yields 14
(it rounds to nearest), so the two do NOT agree bit-for-bit on the
final price. -/
theorem claim_C1_counterexample :
    ((ContractIntegration.init BlockchainMode.REAL
        { pricing_contract_address := ""
          region_contract_address := ""
          pricing_stylus_address := ""
          regions_stylus_address := "" }).calculate_price 200 100 15
        { stylus := RemoteOutcome.excRaised,
          solidity := RemoteOutcome.excRaised }).map (fun r => r.final_price) = some 13 ∧
    (calculate_price 200 100 15 1).map (fun r => r.suggested_price) = some 14 ∧
    (13 : ℤ) ≠ 14 := by
  refine ⟨?_, ?_, by norm_num⟩
  · norm_num [ContractIntegration.init, ContractIntegration.calculate_price,
      ContractConfig.contracts_available, ContractConfig.use_stylus_pricing,
      mock_pricing_calculation, mock_multiplier, mock_apply_limits,
      fallback_to_base_price, pyDiv, pyInt, pyRound2, pyRoundHalfEven, Int.fract]
  · norm_num [calculate_price, pricing_multiplier_tier, pricing_apply_limits, pyDiv,
      pyRoundHalfEven, pyRound2, pyInt, Int.fract, CRITICAL_SHORTAGE_THRESHOLD,
      SHORTAGE_THRESHOLD, SURPLUS_THRESHOLD, CRITICAL_SHORTAGE_MULTIPLIER,
      SHORTAGE_MULTIPLIER, NORMAL_MULTIPLIER, SURPLUS_MULTIPLIER,
      MAX_PRICE_INCREASE, MAX_PRICE_DECREASE]

/-- C1 (amended): in RealMode with no remote source configured, the
resolver takes the local path and returns the decision tagged
`mock_pricing` (the local-rule-engine provenance); it agrees with
`calculate_price` (season factor 1) on the multiplier — hence on the
tier — and on the capping status (both uncapped), while the final
prices agree up to the differing rounding mode: the local path
truncates where `calculate_price` rounds to nearest, so the resolver's
price equals the evaluated price or falls exactly one below it. -/
theorem claim_C1_amended_local_path_agreement (config : ContractConfig) (env : RemoteEnv)
    (supply demand base_price : ℤ)
    (hcfg : config.contracts_available = false)
    (hs : 0 < supply) (hd : 0 ≤ demand) (hb : 0 < base_price)
    (cr : ChainDecision) (er : PriceResult)
    (hcr : (ContractIntegration.init BlockchainMode.REAL config).calculate_price
        supply demand base_price env = some cr)
    (her : calculate_price supply demand base_price 1 = some er) :
    cr.source = "mock_pricing" ∧
    cr.is_capped = some false ∧
    er.is_capped = false ∧
    cr.audit.map (fun a => a.multiplier) = some er.multiplier ∧
    (cr.final_price = er.suggested_price ∨ cr.final_price + 1 = er.suggested_price) := by
  have hinit : ContractIntegration.init BlockchainMode.REAL config =
      { mode := BlockchainMode.MOCK, config := config } := by
    unfold ContractIntegration.init
    rw [if_pos ⟨rfl, by simp [hcfg]⟩]
  rw [hinit] at hcr
  have hcond : ¬ (({ mode := BlockchainMode.MOCK, config := config } :
      ContractIntegration).mode = BlockchainMode.REAL ∧
      ({ mode := BlockchainMode.MOCK, config := config } :
      ContractIntegration).config.contracts_available = true) := by
    intro hcontra
    exact BlockchainMode.noConfusion hcontra.1
  unfold ContractIntegration.calculate_price at hcr
  rw [if_neg hcond] at hcr
  rw [mock_pricing_calculation_pos _ supply demand base_price hs hd] at hcr
  rw [calculate_price_pos supply demand base_price 1 hs] at her
  obtain rfl := Option.some.inj hcr
  obtain rfl := Option.some.inj her
  simp only [mock_multiplier, pricing_multiplier_tier, CRITICAL_SHORTAGE_THRESHOLD,
    SHORTAGE_THRESHOLD, SURPLUS_THRESHOLD, CRITICAL_SHORTAGE_MULTIPLIER,
    SHORTAGE_MULTIPLIER, NORMAL_MULTIPLIER, SURPLUS_MULTIPLIER]
  by_cases hq1 : (demand : ℚ) / (supply : ℚ) > 13/10
  · simp only [if_pos hq1]
    rw [mock_no_cap base_price hb (23/20) (by norm_num) (by norm_num),
      pricing_no_cap base_price hb (23/20) (by norm_num) (by norm_num)]
    exact ⟨rfl, rfl, rfl, by simp [pyRound2_cs_mult],
      local_agree_aux base_price hb (23/20) (by norm_num)⟩
  · simp only [if_neg hq1]
    by_cases hq2 : (demand : ℚ) / (supply : ℚ) > 11/10
    · simp only [if_pos hq2]
      rw [mock_no_cap base_price hb (27/25) (by norm_num) (by norm_num),
        pricing_no_cap base_price hb (27/25) (by norm_num) (by norm_num)]
      exact ⟨rfl, rfl, rfl, by simp [pyRound2_sh_mult],
        local_agree_aux base_price hb (27/25) (by norm_num)⟩
    · simp only [if_neg hq2]
      by_cases hq3 : (demand : ℚ) / (supply : ℚ) < 4/5
      · simp only [if_pos hq3]
        rw [mock_no_cap base_price hb (9/10) (by norm_num) (by norm_num),
          pricing_no_cap base_price hb (9/10) (by norm_num) (by norm_num)]
        exact ⟨rfl, rfl, rfl, by simp [pyRound2_su_mult],
          local_agree_aux base_price hb (9/10) (by norm_num)⟩
      · simp only [if_neg hq3]
        rw [mock_no_cap base_price hb 1 (by norm_num) (by norm_num),
          pricing_no_cap base_price hb 1 (by norm_num) (by norm_num)]
        exact ⟨rfl, rfl, rfl, by simp [pyRound2_no_mult],
          local_agree_aux base_price hb 1 (by norm_num)⟩

theorem claim_C1_witness :
    ∃ cr er, (ContractIntegration.init BlockchainMode.REAL
        { pricing_contract_address := ""
          region_contract_address := ""
          pricing_stylus_address := ""
          regions_stylus_address := "" }).calculate_price 100 100 10000
        { stylus := RemoteOutcome.excRaised,
          solidity := RemoteOutcome.excRaised } = some cr ∧
      calculate_price 100 100 10000 1 = some er ∧
      cr.source = "mock_pricing" ∧
      (cr.final_price = er.suggested_price ∨ cr.final_price + 1 = er.suggested_price) := by
  have hcr : (ContractIntegration.init BlockchainMode.REAL
      { pricing_contract_address := ""
        region_contract_address := ""
        pricing_stylus_address := ""
        regions_stylus_address := "" }).calculate_price 100 100 10000
      { stylus := RemoteOutcome.excRaised, solidity := RemoteOutcome.excRaised } =
      some { final_price := 10000
             reason := "Balanced (0.80-1.10)"
             source := "mock_pricing"
             is_capped := some false
             audit := some { supply := 100
                             demand := 100
                             ratio := 1
                             multiplier := 1
                             base_price := 10000
                             calculated_price := 10000 } } := by
    norm_num [ContractIntegration.init, ContractIntegration.calculate_price,
      ContractConfig.contracts_available, ContractConfig.use_stylus_pricing,
      mock_pricing_calculation, mock_multiplier, mock_apply_limits,
      fallback_to_base_price, pyDiv, pyInt, pyRound2, pyRoundHalfEven, Int.fract]
  have her : calculate_price 100 100 10000 1 =
      some { suggested_price := 10000
             ratio := some 1
             multiplier := 1
             reason := "Balanced supply-demand (0.80-1.10)"
             is_capped := false
             tier := Tier.balanced } := by
    norm_num [calculate_price, pricing_multiplier_tier, pricing_apply_limits, pyDiv,
      pyRoundHalfEven, pyRound2, pyInt, Int.fract, CRITICAL_SHORTAGE_THRESHOLD,
      SHORTAGE_THRESHOLD, SURPLUS_THRESHOLD, CRITICAL_SHORTAGE_MULTIPLIER,
      SHORTAGE_MULTIPLIER, NORMAL_MULTIPLIER, SURPLUS_MULTIPLIER,
      MAX_PRICE_INCREASE, MAX_PRICE_DECREASE]
  have h := claim_C1_amended_local_path_agreement _ _ 100 100 10000 (by rfl)
    (by norm_num) (by norm_num) (by norm_num) _ _ hcr her
  exact ⟨_, _, hcr, her, h.1, h.2.2.2.2⟩

/-- C2 counterexample: in RealMode with both remote sources configured,
when the fast (Stylus) attempt raises and the standard (Solidity)
attempt also raises, the resolver returns the static base-price
fallback — final price 10000, source `fallback` — and NOT the local
rule engine's decision (which would be 10800 tagged `mock_pricing`). -/
theorem claim_C2_counterexample :
    ((ContractIntegration.init BlockchainMode.REAL
        { pricing_contract_address := "0xSolidity"
          region_contract_address := "0xRegion"
          pricing_stylus_address := "0xStylus"
          regions_stylus_address := "" }).calculate_price 100 120 10000
        { stylus := RemoteOutcome.excRaised,
          solidity := RemoteOutcome.excRaised }).map (fun r => (r.final_price, r.source)) =
      some (10000, "fallback") ∧
    ("fallback" : String) ≠ "mock_pricing" := by
  constructor
  · decide
  · intro h
    simp at h

/-- C2 (amended): in RealMode with both remote sources configured, if
the fast (Stylus) remote attempt raises and the standard (Solidity)
attempt also raises, the resolver returns the static base-price
fallback (`source = fallback`, reason `CONTRACT_CALL_FAILED`); the
local rule engine is not consulted on this path — it answers only when
no remote source is configured (mock mode). -/
theorem claim_C2_amended_double_failure_static_fallback (config : ContractConfig)
    (env : RemoteEnv) (supply demand base_price : ℤ)
    (hsty : config.use_stylus_pricing = true)
    (hsol : config.pricing_contract_address ≠ "")
    (hav : config.contracts_available = true)
    (henv1 : env.stylus = RemoteOutcome.excRaised)
    (henv2 : env.solidity = RemoteOutcome.excRaised) :
    (ContractIntegration.init BlockchainMode.REAL config).calculate_price
        supply demand base_price env =
      some (fallback_to_base_price base_price "CONTRACT_CALL_FAILED") := by
  have hinit : ContractIntegration.init BlockchainMode.REAL config =
      { mode := BlockchainMode.REAL, config := config } := by
    unfold ContractIntegration.init
    rw [if_neg]
    intro hcontra
    exact hcontra.2 hav
  rw [hinit]
  unfold ContractIntegration.calculate_price
  rw [if_pos ⟨rfl, hav⟩, if_pos hsty]
  unfold call_stylus_pricing_contract
  simp only [henv1]
  rw [if_pos hsol]
  unfold call_pricing_contract
  simp only [henv2]

theorem claim_C2_witness :
    (ContractIntegration.init BlockchainMode.REAL
        { pricing_contract_address := "0xSolidity"
          region_contract_address := "0xRegion"
          pricing_stylus_address := "0xStylus"
          regions_stylus_address := "" }).calculate_price 100 120 10000
        { stylus := RemoteOutcome.excRaised, solidity := RemoteOutcome.excRaised } =
      some (fallback_to_base_price 10000 "CONTRACT_CALL_FAILED") :=
  claim_C2_amended_double_failure_static_fallback _ _ 100 120 10000
    rfl (by simp) rfl rfl rfl

end Ethani
